import Mathlib

/-!
Shallow embedding of the crypto-trading bot (`src/main.py` and its adapter
classes) for checking the natural-language specification against the code.

Machine floats of the Python source are modelled as exact rationals (`ℚ`);
each fallible exchange/adapter call is modelled as an `Except` value supplied
by an environment record, and the side effects of a pipeline run (exchange
calls, Telegram notifications, error-level logs) are collected in explicit
lists, in the order the source performs them.
-/

namespace CryptoBot

/-! ## Constants from `src/main.py` -/

def HUGGINGFACE_MODEL_DOGE_BREED_NAME : String := "Shiba Inu Dog"

def HUGGINGFACE_MODEL_SCORE_THRESHOLD : ℚ := 32/100

def DEV_ONLY_RULE_TAG : String := "dev-only"

def HAS_MEDIA_RULE_TAG : String := "has-media"

def ORDER_STATUS_FILLED : String := "FILLED"

def ORDER_STATUS_NEW : String := "NEW"

/-! ## Rounding -/

/-- Python 3 `round` on a number: round-half-to-even (banker's rounding),
modelled exactly over `ℚ` (binary-float representation effects abstracted). -/
def pyRoundInt (x : ℚ) : ℤ :=
  let f := ⌊x⌋
  let frac := x - (f : ℚ)
  if frac < 1/2 then f
  else if 1/2 < frac then f + 1
  else if f % 2 = 0 then f else f + 1

/-- Python 3 `round(x, ndigits)`: round to `ndigits` decimal places. -/
def pyRoundDp (x : ℚ) (ndigits : ℕ) : ℚ :=
  (pyRoundInt (x * 10 ^ ndigits) : ℚ) / 10 ^ ndigits

/-- Modelled from the spec: `round_step_size` is imported from the external
`python-binance` package (`binance.helpers`), whose source is not part of this
repository. The spec's contract is that it returns the integer multiple of
`step_size` nearest to `quantity`; we model it as rounding the quotient to the
nearest integer. -/
def round_step_size (quantity step_size : ℚ) : ℚ :=
  (round (quantity / step_size) : ℚ) * step_size

/-! ## Data model for the Order Pipeline (`launch_trade`) -/

/-- Per-symbol trading parameters extracted from `trade_config[pair]`. -/
structure TradeConfig where
  leverage : ℤ
  allocation : ℚ
  limit_price_multiplier : ℚ
  stop_loss_multiplier : ℚ
  take_profit_activation_multiplier : ℚ
  take_profit_callback_rate : ℚ
  tick_size : ℚ
  quantity_precision : ℕ

/-- Exchange-reported position information (`get_position_information`). -/
structure PositionInfo where
  leverage : ℤ
  positionAmt : ℚ
  markPrice : ℚ

/-- Exchange-reported order record. -/
structure Order where
  orderId : ℕ
  status : String
  price : ℚ
  stopPrice : ℚ
deriving DecidableEq

/-- Outcomes of the fallible exchange calls made by one `launch_trade` run:
`.error` models the call raising (a `BinanceAPIException` translated by the
adapter, re-raised as `Exception`), `.ok` a returned order record. -/
structure ExchangeEnv where
  positionInfo : PositionInfo
  askPrice : ℚ
  buyLimitResult : Except String Order
  getOrderResult : Except String Order
  stopLossResult : Except String Order
  trailingStopResult : Except String Order

/-- One exchange API call, recorded in the order the source performs them. -/
inductive ExCall where
  | getPositionInformation
  | setLeverage (leverage : ℤ)
  | getAskPrice
  | buyLimit (quantity limitPrice : ℚ)
  | getOrder (orderId : ℕ)
  | setStopLoss (quantity stopPrice : ℚ)
  | setTrailingStop (quantity activationPrice callbackRate : ℚ)
deriving DecidableEq

/-- An exchange call that places an order (as opposed to a read or a
leverage change). -/
def ExCall.isOrderPlacement : ExCall → Bool
  | .buyLimit _ _ => true
  | .setStopLoss _ _ => true
  | .setTrailingStop _ _ _ => true
  | _ => false

/-- One Telegram message sent by `launch_trade` (`telegram.send_message`). -/
inductive Notification where
  | buyBroke
  | stopLossBroke
  | trailingStopBroke
  | success (quantity : ℚ) (pair : String) (price : ℚ)
deriving DecidableEq

/-- One `logging.error` call made by `launch_trade`. -/
inductive ErrorLog where
  | buyException
  | buyNotFilled
  | stopLossException
  | stopLossNotNew
  | trailingStopException
  | trailingStopNotNew
deriving DecidableEq

/-- The observable effect trace of one `launch_trade` run. -/
structure TradeResult where
  calls : List ExCall
  notifs : List Notification
  errors : List ErrorLog
deriving DecidableEq

/-- Embedding of `launch_trade(pair)` from `src/main.py` (lines 120–207).
`margin_balance` is the module-global read once per run; `env` supplies the
responses of the exchange; the result records every exchange call, Telegram
notification and error log, in source order. -/
def launch_trade (pair : String) (cfg : TradeConfig) (margin_balance : ℚ)
    (env : ExchangeEnv) : TradeResult :=
  let position_info := env.positionInfo
  let calls0 := [ExCall.getPositionInformation]
  let calls1 := if position_info.leverage ≠ cfg.leverage
    then calls0 ++ [ExCall.setLeverage cfg.leverage] else calls0
  if 0 < position_info.positionAmt then
    { calls := calls1, notifs := [], errors := [] }
  else
    let quantity := pyRoundDp
      (margin_balance * cfg.allocation * (cfg.leverage : ℚ) / position_info.markPrice)
      cfg.quantity_precision
    let limit_price := round_step_size (env.askPrice * cfg.limit_price_multiplier)
      cfg.tick_size
    let calls2 := calls1 ++ [ExCall.getAskPrice, ExCall.buyLimit quantity limit_price]
    match env.buyLimitResult with
    | .error _ =>
        { calls := calls2, notifs := [.buyBroke], errors := [.buyException] }
    | .ok buyOrder =>
      let calls3 := calls2 ++ [ExCall.getOrder buyOrder.orderId]
      match env.getOrderResult with
      | .error _ =>
          { calls := calls3, notifs := [.buyBroke], errors := [.buyException] }
      | .ok order =>
        if order.status = ORDER_STATUS_FILLED then
          let filled_price := order.price
          let buy_order_limit_price := order.price
          let stop_price := round_step_size (filled_price * cfg.stop_loss_multiplier)
            cfg.tick_size
          let calls4 := calls3 ++ [ExCall.setStopLoss quantity stop_price]
          match env.stopLossResult with
          | .error _ =>
              { calls := calls4, notifs := [.stopLossBroke],
                errors := [.stopLossException] }
          | .ok slOrder =>
            let errors1 := if slOrder.status = ORDER_STATUS_NEW then []
              else [ErrorLog.stopLossNotNew]
            let activation_price := round_step_size
              (filled_price * cfg.take_profit_activation_multiplier) cfg.tick_size
            let calls5 := calls4 ++
              [ExCall.setTrailingStop quantity activation_price
                cfg.take_profit_callback_rate]
            match env.trailingStopResult with
            | .error _ =>
                { calls := calls5, notifs := [.trailingStopBroke],
                  errors := errors1 ++ [.trailingStopException] }
            | .ok tsOrder =>
              let errors2 := errors1 ++
                (if tsOrder.status = ORDER_STATUS_NEW then []
                  else [ErrorLog.trailingStopNotNew])
              { calls := calls5,
                notifs := [.success quantity pair buy_order_limit_price],
                errors := errors2 }
        else
          { calls := calls3, notifs := [], errors := [.buyNotFilled] }

/-! ## Data model for the Stream Consumer (`TwitterStream.get_stream`) -/

/-- One inference returned by the HuggingFace image-classifier endpoint. -/
structure Inference where
  label : String
  score : ℚ
deriving DecidableEq

/-- Embedding of `image_contains_doge(img)` (lines 98–117): the first entry of
the inference list must carry the Doge label with a score at or above the
threshold. On an empty inference list the Python `inference[0]` raises
(`IndexError`), modelled as `none`. -/
def image_contains_doge (inference : List Inference) : Option Bool :=
  match inference with
  | [] => none
  | first_match :: _ =>
      some (decide (first_match.label = HUGGINGFACE_MODEL_DOGE_BREED_NAME) &&
        decide (HUGGINGFACE_MODEL_SCORE_THRESHOLD ≤ first_match.score))

/-- One attachment of a stream record (`includes.media` entry). -/
structure MediaItem where
  type : String
  url : String
deriving DecidableEq

/-- Embedding of the media-scan loop (lines 259–264): walk the media in order,
classify each photo, stop at the first photo classified as a Doge. Returns the
urls submitted to the classifier, in order, and the final `doge_found` flag;
`none` models an exception escaping the loop (classifier returned an empty
inference list). `predict` maps an image url to the classifier's inference
list. -/
def scan_media (predict : String → List Inference) : List MediaItem →
    Option (List String × Bool)
  | [] => some ([], false)
  | m :: rest =>
    if m.type = "photo" then
      match image_contains_doge (predict m.url) with
      | none => none
      | some true => some ([m.url], true)
      | some false =>
        match scan_media predict rest with
        | none => none
        | some (classified, found) => some (m.url :: classified, found)
    else scan_media predict rest

/-- One entry of a record's `matching_rules` array. -/
structure MatchingRule where
  tag : String
deriving DecidableEq

/-- One parsed JSON record of the stream body. `data` is `some` exactly when
the `'data'` key is present; `matching_rules` and `includes` are `none` when
the respective key is absent. -/
structure StreamRecord where
  data : Option String
  matching_rules : Option (List MatchingRule)
  includes : Option (List MediaItem)

/-- What processing one record of the stream body does. -/
inductive RecordOutcome where
  | warnInvalid
  | skipDevOnly
  | launched (pair : String)
  | droppedNoDoge
  | raised
deriving DecidableEq

/-- Embedding of the per-record body of the `for response_line` loop
(lines 232–271). A missing `'data'` key is a logged warning and a skip; a
missing or empty `matching_rules` array makes `json_response['matching_rules'][0]`
raise (`KeyError`/`IndexError`), modelled as `.raised`; a tag other than the
two reserved tags launches the pipeline for that tag; a `has-media` tag scans
the attached media and launches the pipeline for `DOGEUSDT` when a Doge photo
is found. -/
def process_record (predict : String → List Inference) (r : StreamRecord) :
    RecordOutcome :=
  match r.data with
  | none => .warnInvalid
  | some _ =>
    match r.matching_rules with
    | none => .raised
    | some [] => .raised
    | some (rule :: _) =>
      if rule.tag = DEV_ONLY_RULE_TAG then .skipDevOnly
      else if rule.tag ≠ HAS_MEDIA_RULE_TAG then .launched rule.tag
      else
        match r.includes with
        | none => .droppedNoDoge
        | some media =>
          match scan_media predict media with
          | none => .raised
          | some (_, true) => .launched "DOGEUSDT"
          | some (_, false) => .droppedNoDoge

/-- One line of the chunked stream body: blank heartbeat or a parsed record. -/
inductive BodyLine where
  | blank
  | record (r : StreamRecord)

/-- Embedding of the `for response_line in response.iter_lines()` loop
(lines 230–271) together with the surrounding `try`/`except` (lines 272–274):
blank lines are skipped; records are processed in order; the first record
whose processing raises aborts the rest of the body and triggers a full
reconnect (the returned flag). -/
def consume_body (predict : String → List Inference) :
    List BodyLine → List RecordOutcome × Bool
  | [] => ([], false)
  | .blank :: rest => consume_body predict rest
  | .record r :: rest =>
    let o := process_record predict r
    if o = RecordOutcome.raised then ([o], true)
    else
      let res := consume_body predict rest
      (o :: res.1, res.2)

/-- How one connection attempt of `TwitterStream.get_stream` (lines 211–274)
proceeds after reading the response status. -/
inductive ConnOutcome where
  | reconnectAfterSleep (delayArg : ℚ)
  | reconnectOnError
  | streamBody
deriving DecidableEq

/-- The argument the 429 branch passes to `time.sleep` (line 221):
`reset = float(headers['x-rate-limit-reset']) + 1`, then `reset - time.time()`.
No clamping is performed. -/
def rate_limit_sleep_arg (resetHeader now : ℚ) : ℚ := (resetHeader + 1) - now

/-- Embedding of the status dispatch of `get_stream` (lines 215–228) composed
with its exception handler (lines 272–274). A 429 status sleeps
`rate_limit_sleep_arg` and reconnects; when that argument is negative,
`time.sleep` raises `ValueError`, which the handler catches, logs, and
reconnects immediately. Any status other than 200 and 429 raises an
`Exception`, which the same handler catches, logs, and reconnects immediately.
A 200 status proceeds to consume the body. -/
def get_stream_connect (status : ℕ) (resetHeader now : ℚ) : ConnOutcome :=
  if status = 429 then
    if 0 ≤ rate_limit_sleep_arg resetHeader now then
      .reconnectAfterSleep (rate_limit_sleep_arg resetHeader now)
    else .reconnectOnError
  else if status ≠ 200 then .reconnectOnError
  else .streamBody

/-- The instant at which the reconnect attempt starts, for a connection
answered at instant `now` with a non-200 status (`none` when the attempt
proceeds to stream the body instead of reconnecting). -/
def reconnect_instant (status : ℕ) (resetHeader now : ℚ) : Option ℚ :=
  match get_stream_connect status resetHeader now with
  | .reconnectAfterSleep d => some (now + d)
  | .reconnectOnError => some now
  | .streamBody => none

/-! ## Concrete fixtures -/

/-- Baseline per-symbol configuration used by concrete instances. -/
def cfg0 : TradeConfig :=
  { leverage := 1, allocation := 1/10, limit_price_multiplier := 1,
    stop_loss_multiplier := 98/100, take_profit_activation_multiplier := 11/10,
    take_profit_callback_rate := 1, tick_size := 1/10, quantity_precision := 0 }

/-- Baseline environment: flat position, every call succeeds, entry filled at
100, both protective legs accepted with status `NEW`. -/
def env0 : ExchangeEnv :=
  { positionInfo := { leverage := 1, positionAmt := 0, markPrice := 100 },
    askPrice := 100,
    buyLimitResult := .ok ⟨1, "NEW", 100, 0⟩,
    getOrderResult := .ok ⟨1, "FILLED", 100, 0⟩,
    stopLossResult := .ok ⟨2, "NEW", 0, 98⟩,
    trailingStopResult := .ok ⟨3, "NEW", 0, 110⟩ }

/-! ## Shape predicates and executed-path predicates -/

/-- The run placed a buy-limit order with this call. -/
def ExCall.isBuyLimit : ExCall → Bool
  | .buyLimit _ _ => true
  | _ => false

/-- The run placed a stop-loss order with this call. -/
def ExCall.isStopLoss : ExCall → Bool
  | .setStopLoss _ _ => true
  | _ => false

/-- The run placed a trailing-stop order with this call. -/
def ExCall.isTrailingStop : ExCall → Bool
  | .setTrailingStop _ _ _ => true
  | _ => false

/-- The notification is the consolidated success message. -/
def Notification.isSuccess : Notification → Bool
  | .success _ _ _ => true
  | _ => false

/-- The notification is one of the three failure messages. -/
def Notification.isFailure : Notification → Bool
  | .buyBroke => true
  | .stopLossBroke => true
  | .trailingStopBroke => true
  | .success _ _ _ => false

/-- The entry-order phase (`buy_limit` or the subsequent `get_order`, one
`try` block in the source) raised. -/
def buyPhaseRaised (env : ExchangeEnv) : Prop :=
  (∃ e, env.buyLimitResult = Except.error e) ∨
    (∃ e, env.getOrderResult = Except.error e)

/-- The entry-order phase returned and the re-fetched order is `FILLED`. -/
def entryFilled (env : ExchangeEnv) : Prop :=
  ∃ bo ord, env.buyLimitResult = Except.ok bo ∧
    env.getOrderResult = Except.ok ord ∧ ord.status = ORDER_STATUS_FILLED

/-- The stop-loss submission raised. -/
def stopLossRaised (env : ExchangeEnv) : Prop :=
  ∃ e, env.stopLossResult = Except.error e

/-- The trailing-stop submission raised. -/
def trailingStopRaised (env : ExchangeEnv) : Prop :=
  ∃ e, env.trailingStopResult = Except.error e

/-- Environment of the stop-loss-failure scenario: identical to `env0` except
that the stop-loss submission raises. -/
def envSLerr : ExchangeEnv :=
  { env0 with stopLossResult := .error "Binance API error" }

/-- Environment with a short (negative) exchange-reported position. -/
def envShort : ExchangeEnv :=
  { env0 with positionInfo := { leverage := 1, positionAmt := -5, markPrice := 100 } }

/-- Environment with a long (positive) exchange-reported position. -/
def envLong : ExchangeEnv :=
  { env0 with positionInfo := { leverage := 1, positionAmt := 5, markPrice := 100 } }

/-- Environment whose re-fetched entry order has status `EXPIRED`. -/
def envExpired : ExchangeEnv :=
  { env0 with getOrderResult := .ok ⟨1, "EXPIRED", 100, 0⟩ }

/-- Environment whose stop-loss submission returns an order whose status is
`REJECTED` rather than `NEW` (no exception raised). -/
def envSLrejected : ExchangeEnv :=
  { env0 with stopLossResult := .ok ⟨2, "REJECTED", 0, 98⟩ }

/-! ## Claim C1 -/

/-- Claim C1, counterexample: in a run that reaches step 5 where the stop-loss
submission raises, the code returns from `launch_trade` (line 185) without
submitting the trailing-stop leg, so "the trailing-stop leg is still
submitted" is false: one stop-loss call is made, one failure notification is
sent, and no trailing-stop call occurs. -/
theorem stop_loss_error_counterexample :
    envSLerr.stopLossResult = Except.error "Binance API error" ∧
    (launch_trade "BTCUSDT" cfg0 1000 envSLerr).notifs =
      [Notification.stopLossBroke] ∧
    (launch_trade "BTCUSDT" cfg0 1000 envSLerr).calls.countP
      ExCall.isStopLoss = 1 ∧
    (launch_trade "BTCUSDT" cfg0 1000 envSLerr).calls.countP
      ExCall.isTrailingStop = 0 :=
  ⟨rfl, by decide, by decide, by decide⟩

/-- Claim C1, amended: when the stop-loss leg's submission throws an adapter
error in a run that reaches step 5, the error is caught, logged and exactly
one failure notification is sent for the failed leg, the stop-loss leg is not
retried, and the entry order is not undone; however the pipeline returns at
that point, so the trailing-stop leg is not submitted. -/
theorem stop_loss_error_aborts_pipeline (pair : String) (cfg : TradeConfig)
    (mb : ℚ) (env : ExchangeEnv) (bo ord : Order) (e : String)
    (hflat : env.positionInfo.positionAmt ≤ 0)
    (hbuy : env.buyLimitResult = Except.ok bo)
    (hget : env.getOrderResult = Except.ok ord)
    (hfill : ord.status = ORDER_STATUS_FILLED)
    (hsl : env.stopLossResult = Except.error e) :
    (launch_trade pair cfg mb env).notifs = [Notification.stopLossBroke] ∧
    (launch_trade pair cfg mb env).errors = [ErrorLog.stopLossException] ∧
    (launch_trade pair cfg mb env).calls.countP ExCall.isStopLoss = 1 ∧
    (launch_trade pair cfg mb env).calls.countP ExCall.isTrailingStop = 0 ∧
    (launch_trade pair cfg mb env).calls.countP ExCall.isBuyLimit = 1 := by
  by_cases hlev : env.positionInfo.leverage ≠ cfg.leverage <;>
    simp [launch_trade, hbuy, hget, hfill, hsl, not_lt.mpr hflat, hlev,
      ExCall.isStopLoss, ExCall.isTrailingStop, ExCall.isBuyLimit]

/-- Claim C1, witness: the amended theorem applied to the concrete stop-loss
failure environment. -/
theorem stop_loss_error_aborts_pipeline_witness :
    (launch_trade "BTCUSDT" cfg0 1000 envSLerr).notifs =
      [Notification.stopLossBroke] ∧
    (launch_trade "BTCUSDT" cfg0 1000 envSLerr).errors =
      [ErrorLog.stopLossException] ∧
    (launch_trade "BTCUSDT" cfg0 1000 envSLerr).calls.countP
      ExCall.isStopLoss = 1 ∧
    (launch_trade "BTCUSDT" cfg0 1000 envSLerr).calls.countP
      ExCall.isTrailingStop = 0 ∧
    (launch_trade "BTCUSDT" cfg0 1000 envSLerr).calls.countP
      ExCall.isBuyLimit = 1 :=
  stop_loss_error_aborts_pipeline "BTCUSDT" cfg0 1000 envSLerr
    ⟨1, "NEW", 100, 0⟩ ⟨1, "FILLED", 100, 0⟩ "Binance API error"
    (by decide) rfl rfl rfl rfl

/-! ## Claim C2 -/

/-- Claim C2, counterexample: the guard at line 146 tests
`positionAmt > 0` only, so a short (negative) position does not abort the
pipeline: with `positionAmt = -5` the entry order is still placed and the run
completes with a success notification, refuting "for every symbol whose
positionAmt is nonzero (positive or negative) the pipeline aborts as a no-op
with no exchange order calls". -/
theorem short_position_places_orders :
    envShort.positionInfo.positionAmt = -5 ∧
    (launch_trade "BTCUSDT" cfg0 1000 envShort).calls.countP
      ExCall.isBuyLimit = 1 ∧
    (launch_trade "BTCUSDT" cfg0 1000 envShort).notifs.countP
      Notification.isSuccess = 1 :=
  ⟨rfl, by decide, by decide⟩

/-- Claim C2, amended: the silent no-op guard triggers only when the
exchange-reported `positionAmt` is strictly positive (an existing long
position); in that case no order-placement call is made and no notification
or error log is produced — the only exchange calls are the position read and
possibly one leverage change. A negative (short) `positionAmt` does not
abort. -/
theorem long_position_no_order_calls (pair : String) (cfg : TradeConfig)
    (mb : ℚ) (env : ExchangeEnv)
    (hpos : 0 < env.positionInfo.positionAmt) :
    (launch_trade pair cfg mb env).notifs = [] ∧
    (launch_trade pair cfg mb env).errors = [] ∧
    (launch_trade pair cfg mb env).calls.countP ExCall.isBuyLimit = 0 ∧
    (launch_trade pair cfg mb env).calls.countP ExCall.isStopLoss = 0 ∧
    (launch_trade pair cfg mb env).calls.countP ExCall.isTrailingStop = 0 ∧
    (launch_trade pair cfg mb env).calls =
      [ExCall.getPositionInformation] ++
        (if env.positionInfo.leverage ≠ cfg.leverage
          then [ExCall.setLeverage cfg.leverage] else []) := by
  by_cases hlev : env.positionInfo.leverage ≠ cfg.leverage <;>
    simp [launch_trade, hpos, hlev,
      ExCall.isStopLoss, ExCall.isTrailingStop, ExCall.isBuyLimit]

/-- Claim C2, witness: the amended theorem applied to the concrete long
position environment. -/
theorem long_position_no_order_calls_witness :
    (launch_trade "BTCUSDT" cfg0 1000 envLong).notifs = [] ∧
    (launch_trade "BTCUSDT" cfg0 1000 envLong).errors = [] ∧
    (launch_trade "BTCUSDT" cfg0 1000 envLong).calls.countP
      ExCall.isBuyLimit = 0 ∧
    (launch_trade "BTCUSDT" cfg0 1000 envLong).calls.countP
      ExCall.isStopLoss = 0 ∧
    (launch_trade "BTCUSDT" cfg0 1000 envLong).calls.countP
      ExCall.isTrailingStop = 0 ∧
    (launch_trade "BTCUSDT" cfg0 1000 envLong).calls =
      [ExCall.getPositionInformation] ++
        (if envLong.positionInfo.leverage ≠ cfg0.leverage
          then [ExCall.setLeverage cfg0.leverage] else []) :=
  long_position_no_order_calls "BTCUSDT" cfg0 1000 envLong (by decide)

/-! ## Claim C3 -/

/-- Claim C3, counterexample: an entry order whose re-fetched status is
`EXPIRED` is a trading-step failure (order not filled), yet the code
(lines 171–173) only logs it and returns — no operator notification is sent,
refuting "for every trading-step failure an operator notification is sent". -/
theorem not_filled_sends_no_notification :
    envExpired.getOrderResult = Except.ok ⟨1, "EXPIRED", 100, 0⟩ ∧
    "EXPIRED" ≠ ORDER_STATUS_FILLED ∧
    (launch_trade "BTCUSDT" cfg0 1000 envExpired).notifs = [] ∧
    (launch_trade "BTCUSDT" cfg0 1000 envExpired).errors =
      [ErrorLog.buyNotFilled] :=
  ⟨rfl, by decide, by decide, by decide⟩

/-- Claim C3, amended: in a run that passes the position guard, a failure
notification is sent exactly when a submission raised on the executed path
(entry phase, or stop-loss / trailing-stop after a filled entry), and the
success notification is sent exactly when the entry filled and neither
protective submission raised — an entry order that is not `FILLED` aborts
with only an error log and no notification, and a protective leg whose status
is not `NEW` neither aborts nor produces a notification; at most one
notification is sent per run. -/
theorem notification_policy (pair : String) (cfg : TradeConfig)
    (mb : ℚ) (env : ExchangeEnv)
    (hflat : env.positionInfo.positionAmt ≤ 0) :
    ((launch_trade pair cfg mb env).notifs.countP Notification.isFailure = 1 ↔
      buyPhaseRaised env ∨
        (entryFilled env ∧ (stopLossRaised env ∨ trailingStopRaised env))) ∧
    ((launch_trade pair cfg mb env).notifs.countP Notification.isSuccess = 1 ↔
      entryFilled env ∧ ¬ stopLossRaised env ∧ ¬ trailingStopRaised env) ∧
    (launch_trade pair cfg mb env).notifs.length ≤ 1 := by
  rcases hb : env.buyLimitResult with e | bo
  · simp [launch_trade, hb, not_lt.mpr hflat, buyPhaseRaised, entryFilled,
      stopLossRaised, trailingStopRaised, Notification.isFailure,
      Notification.isSuccess]
  · rcases hg : env.getOrderResult with e | ord
    · simp [launch_trade, hb, hg, not_lt.mpr hflat, buyPhaseRaised,
        entryFilled, stopLossRaised, trailingStopRaised,
        Notification.isFailure, Notification.isSuccess]
    · by_cases hst : ord.status = ORDER_STATUS_FILLED
      · rcases hsl : env.stopLossResult with e | sl
        · simp [launch_trade, hb, hg, hst, hsl, not_lt.mpr hflat,
            buyPhaseRaised, entryFilled, stopLossRaised, trailingStopRaised,
            Notification.isFailure, Notification.isSuccess]
        · rcases hts : env.trailingStopResult with e | ts
          · simp [launch_trade, hb, hg, hst, hsl, hts, not_lt.mpr hflat,
              buyPhaseRaised, entryFilled, stopLossRaised,
              trailingStopRaised, Notification.isFailure,
              Notification.isSuccess]
          · simp [launch_trade, hb, hg, hst, hsl, hts, not_lt.mpr hflat,
              buyPhaseRaised, entryFilled, stopLossRaised,
              trailingStopRaised, Notification.isFailure,
              Notification.isSuccess]
      · simp [launch_trade, hb, hg, hst, not_lt.mpr hflat, buyPhaseRaised,
          entryFilled, stopLossRaised, trailingStopRaised,
          Notification.isFailure, Notification.isSuccess]

/-- Claim C3, witness: the amended notification policy applied to the
all-success environment. -/
theorem notification_policy_witness :
    ((launch_trade "BTCUSDT" cfg0 1000 env0).notifs.countP
        Notification.isFailure = 1 ↔
      buyPhaseRaised env0 ∨
        (entryFilled env0 ∧ (stopLossRaised env0 ∨ trailingStopRaised env0))) ∧
    ((launch_trade "BTCUSDT" cfg0 1000 env0).notifs.countP
        Notification.isSuccess = 1 ↔
      entryFilled env0 ∧ ¬ stopLossRaised env0 ∧ ¬ trailingStopRaised env0) ∧
    (launch_trade "BTCUSDT" cfg0 1000 env0).notifs.length ≤ 1 :=
  notification_policy "BTCUSDT" cfg0 1000 env0 (by decide)

/-! ## Claim C6 -/

/-- Claim C6, counterexample: the stop-loss submission returns an order with
status `REJECTED` (not `NEW`, no exception); the code only logs this
(lines 189–190) and still reaches line 207, so the consolidated success
notification is sent even though a protective leg's resulting status is not
`NEW` — refuting "sent if and only if each leg's resulting status is NEW". -/
theorem success_notification_despite_leg_not_new :
    envSLrejected.stopLossResult = Except.ok ⟨2, "REJECTED", 0, 98⟩ ∧
    "REJECTED" ≠ ORDER_STATUS_NEW ∧
    (launch_trade "BTCUSDT" cfg0 1000 envSLrejected).notifs.countP
      Notification.isSuccess = 1 ∧
    ErrorLog.stopLossNotNew ∈
      (launch_trade "BTCUSDT" cfg0 1000 envSLrejected).errors :=
  ⟨rfl, by decide, by decide, by decide⟩

/-- Claim C6, amended: in a run that passes the position guard, the single
consolidated success notification — naming the computed quantity, the symbol
and the price field of the re-fetched entry order — is sent if and only if
the entry phase returned with a `FILLED` order and both protective-leg
submissions returned without raising; the legs' resulting statuses (`NEW` or
not) play no role in the condition. -/
theorem success_notification_iff_no_exception (pair : String)
    (cfg : TradeConfig) (mb : ℚ) (env : ExchangeEnv)
    (hflat : env.positionInfo.positionAmt ≤ 0) :
    ((launch_trade pair cfg mb env).notifs.countP Notification.isSuccess = 1 ↔
      entryFilled env ∧ ¬ stopLossRaised env ∧ ¬ trailingStopRaised env) ∧
    (∀ bo ord sl ts, env.buyLimitResult = Except.ok bo →
      env.getOrderResult = Except.ok ord → ord.status = ORDER_STATUS_FILLED →
      env.stopLossResult = Except.ok sl →
      env.trailingStopResult = Except.ok ts →
      (launch_trade pair cfg mb env).notifs =
        [Notification.success
          (pyRoundDp (mb * cfg.allocation * (cfg.leverage : ℚ) /
              env.positionInfo.markPrice) cfg.quantity_precision)
          pair ord.price]) := by
  constructor
  · exact (notification_policy pair cfg mb env hflat).2.1
  · intro bo ord sl ts hb hg hst hsl hts
    simp [launch_trade, hb, hg, hst, hsl, hts, not_lt.mpr hflat]

/-- Claim C6, witness: the amended success-notification condition applied to
the environment whose stop-loss leg is accepted but `REJECTED`. -/
theorem success_notification_iff_no_exception_witness :
    ((launch_trade "BTCUSDT" cfg0 1000 envSLrejected).notifs.countP
        Notification.isSuccess = 1 ↔
      entryFilled envSLrejected ∧ ¬ stopLossRaised envSLrejected ∧
        ¬ trailingStopRaised envSLrejected) ∧
    (∀ bo ord sl ts, envSLrejected.buyLimitResult = Except.ok bo →
      envSLrejected.getOrderResult = Except.ok ord →
      ord.status = ORDER_STATUS_FILLED →
      envSLrejected.stopLossResult = Except.ok sl →
      envSLrejected.trailingStopResult = Except.ok ts →
      (launch_trade "BTCUSDT" cfg0 1000 envSLrejected).notifs =
        [Notification.success
          (pyRoundDp (1000 * cfg0.allocation * (cfg0.leverage : ℚ) /
              envSLrejected.positionInfo.markPrice) cfg0.quantity_precision)
          "BTCUSDT" ord.price]) :=
  success_notification_iff_no_exception "BTCUSDT" cfg0 1000 envSLrejected
    (by decide)

/-! ## Claim C8 -/

/-- Claim C8, confirmed: when the re-fetched entry order's status is anything
other than `FILLED`, the pipeline aborts after the fill-verification step: no
stop-loss or trailing-stop call is made, no notification (in particular no
success notification) is sent, the non-fill is logged as an error, and the
entry order is not retried (exactly one buy-limit call). -/
theorem not_filled_aborts_no_protective_orders (pair : String)
    (cfg : TradeConfig) (mb : ℚ) (env : ExchangeEnv) (bo ord : Order)
    (hflat : env.positionInfo.positionAmt ≤ 0)
    (hbuy : env.buyLimitResult = Except.ok bo)
    (hget : env.getOrderResult = Except.ok ord)
    (hnf : ord.status ≠ ORDER_STATUS_FILLED) :
    (launch_trade pair cfg mb env).calls.countP ExCall.isStopLoss = 0 ∧
    (launch_trade pair cfg mb env).calls.countP ExCall.isTrailingStop = 0 ∧
    (launch_trade pair cfg mb env).notifs = [] ∧
    (launch_trade pair cfg mb env).errors = [ErrorLog.buyNotFilled] ∧
    (launch_trade pair cfg mb env).calls.countP ExCall.isBuyLimit = 1 := by
  by_cases hlev : env.positionInfo.leverage ≠ cfg.leverage <;>
    simp [launch_trade, hbuy, hget, hnf, not_lt.mpr hflat, hlev,
      ExCall.isStopLoss, ExCall.isTrailingStop, ExCall.isBuyLimit]

/-- Claim C8, witness: the theorem applied to the environment whose entry
order comes back `EXPIRED`. -/
theorem not_filled_aborts_no_protective_orders_witness :
    (launch_trade "BTCUSDT" cfg0 1000 envExpired).calls.countP
      ExCall.isStopLoss = 0 ∧
    (launch_trade "BTCUSDT" cfg0 1000 envExpired).calls.countP
      ExCall.isTrailingStop = 0 ∧
    (launch_trade "BTCUSDT" cfg0 1000 envExpired).notifs = [] ∧
    (launch_trade "BTCUSDT" cfg0 1000 envExpired).errors =
      [ErrorLog.buyNotFilled] ∧
    (launch_trade "BTCUSDT" cfg0 1000 envExpired).calls.countP
      ExCall.isBuyLimit = 1 :=
  not_filled_aborts_no_protective_orders "BTCUSDT" cfg0 1000 envExpired
    ⟨1, "NEW", 100, 0⟩ ⟨1, "EXPIRED", 100, 0⟩ (by decide) rfl rfl (by decide)

/-! ## Claim C4 -/

/-- Claim C4, counterexample: the 429 branch computes its sleep argument as
`reset + 1 - now` with no clamping (line 221); when the reset instant is
already past (reset header 0, now 2) the computed value is `-1`, not the
claimed `max (reset - now + 1) 0 = 0`, and `time.sleep` raises, sending the
consumer through the generic error handler instead of a clean sleep. -/
theorem rate_limit_delay_not_clamped :
    rate_limit_sleep_arg 0 2 = -1 ∧
    rate_limit_sleep_arg 0 2 ≠ max ((0:ℚ) - 2 + 1) 0 ∧
    get_stream_connect 429 0 2 = ConnOutcome.reconnectOnError := by
  norm_num [rate_limit_sleep_arg, get_stream_connect]

/-- Claim C4, amended: on a 429 response the consumer sleeps
`reset + 1 - now` without clamping and then reconnects, so when that value is
nonnegative the reconnect instant is exactly `reset + 1`; when it is negative
the sleep call raises and the generic handler reconnects immediately at
`now`, which is already past `reset + 1` — in every case the reconnect does
not occur before the supplied reset instant plus the one-second buffer. -/
theorem reconnect_not_before_reset (reset now : ℚ) :
    (0 ≤ (reset + 1) - now →
      get_stream_connect 429 reset now =
        ConnOutcome.reconnectAfterSleep ((reset + 1) - now) ∧
      reconnect_instant 429 reset now = some (reset + 1)) ∧
    ((reset + 1) - now < 0 →
      get_stream_connect 429 reset now = ConnOutcome.reconnectOnError ∧
      reconnect_instant 429 reset now = some now) ∧
    (∃ t, reconnect_instant 429 reset now = some t ∧ reset + 1 ≤ t) := by
  have e : now + ((reset + 1) - now) = reset + 1 := by ring
  refine ⟨fun h => ?_, fun h => ?_, ?_⟩
  · constructor
    · simp [get_stream_connect, rate_limit_sleep_arg, h]
    · simp [reconnect_instant, get_stream_connect, rate_limit_sleep_arg, h, e]
  · constructor
    · simp [get_stream_connect, rate_limit_sleep_arg, not_le.mpr h]
    · simp [reconnect_instant, get_stream_connect, rate_limit_sleep_arg,
        not_le.mpr h]
  · by_cases h : 0 ≤ (reset + 1) - now
    · exact ⟨reset + 1,
        by simp [reconnect_instant, get_stream_connect, rate_limit_sleep_arg,
          h, e], le_refl _⟩
    · refine ⟨now, by simp [reconnect_instant, get_stream_connect,
        rate_limit_sleep_arg, h], ?_⟩
      have := not_le.mp h
      linarith

/-- Claim C4, witness: the amended theorem applied at reset header 0 and
connection instant 1, where the unclamped sleep argument is 0. -/
theorem reconnect_not_before_reset_witness :
    get_stream_connect 429 0 1 =
      ConnOutcome.reconnectAfterSleep (((0:ℚ) + 1) - 1) ∧
    reconnect_instant 429 0 1 = some ((0:ℚ) + 1) :=
  (reconnect_not_before_reset 0 1).1 (by simp)

/-! ## Claim C5 -/

/-- Claim C5, counterexample: a 500 response is handled by raising an
`Exception` (line 226) which the connection-level handler catches and then
reconnects with no sleep at all — the reconnect instant equals the current
instant, refuting "reconnects only after a short fixed delay". -/
theorem other_status_reconnects_immediately :
    get_stream_connect 500 0 0 = ConnOutcome.reconnectOnError ∧
    reconnect_instant 500 0 0 = some 0 := by decide

/-- Claim C5, amended: every connection attempt answered with a status other
than 200 and 429 takes the generic recovery path — the raised error is caught
by the connection-level handler, logged, and the consumer reconnects
immediately (no delay); the error is never surfaced to the caller as
fatal. -/
theorem other_status_recovery (s : ℕ) (reset now : ℚ)
    (hs200 : s ≠ 200) (hs429 : s ≠ 429) :
    get_stream_connect s reset now = ConnOutcome.reconnectOnError ∧
    reconnect_instant s reset now = some now := by
  simp [get_stream_connect, reconnect_instant, hs200, hs429]

/-- Claim C5, witness: the amended theorem applied to a 500 response. -/
theorem other_status_recovery_witness :
    get_stream_connect 500 10 3 = ConnOutcome.reconnectOnError ∧
    reconnect_instant 500 10 3 = some 3 :=
  other_status_recovery 500 10 3 (by decide) (by decide)

/-! ## Claim C7 -/

/-- Urls of the attached media of type `photo`, in media order. -/
def photo_urls (media : List MediaItem) : List String :=
  (media.filter fun m => m.type == "photo").map MediaItem.url

/-- The classifier decision for one url, as the source's loop sees it (the
value of `image_contains_doge(media['url'])` when it returns). -/
def classified_doge (predict : String → List Inference) (u : String) : Bool :=
  match image_contains_doge (predict u) with
  | some b => b
  | none => false

/-- Specification-side description of the scan order: everything up to and
including the first element satisfying `q` (all of them when none does). -/
def take_until (q : String → Bool) : List String → List String
  | [] => []
  | u :: rest => if q u then [u] else u :: take_until q rest

/-- Relates the classifier decision to the result of `image_contains_doge`. -/
theorem classified_doge_eq_true (predict : String → List Inference)
    (u : String) :
    classified_doge predict u = true ↔
      image_contains_doge (predict u) = some true := by
  cases h : image_contains_doge (predict u) with
  | none => simp [classified_doge, h]
  | some b => cases b <;> simp [classified_doge, h]

/-- A qualifying photo exists among the media exactly when some photo url
classifies as a Doge. -/
theorem any_photo_iff (predict : String → List Inference)
    (media : List MediaItem) :
    (photo_urls media).any (classified_doge predict) = true ↔
      ∃ m ∈ media, m.type = "photo" ∧
        image_contains_doge (predict m.url) = some true := by
  simp only [photo_urls, List.any_eq_true, classified_doge_eq_true,
    List.mem_map, List.mem_filter, beq_iff_eq]
  constructor
  · rintro ⟨x, ⟨a, ⟨ha, ht⟩, rfl⟩, hP⟩
    exact ⟨a, ha, ht, hP⟩
  · rintro ⟨m, hm, ht, hP⟩
    exact ⟨m.url, ⟨m, ⟨hm, ht⟩, rfl⟩, hP⟩

/-- The media-scan loop classifies exactly the photos up to and including the
first qualifying one and reports whether a qualifying photo was found,
provided the classifier returns a nonempty inference list for every photo. -/
theorem scan_media_spec (predict : String → List Inference) :
    ∀ media : List MediaItem,
      (∀ m ∈ media, m.type = "photo" → predict m.url ≠ []) →
      scan_media predict media =
        some (take_until (classified_doge predict) (photo_urls media),
          (photo_urls media).any (classified_doge predict)) := by
  intro media
  induction media with
  | nil => intro h; simp [scan_media, take_until, photo_urls]
  | cons m rest ih =>
    intro h
    have hrest := ih fun m' hm' => h m' (List.mem_cons_of_mem _ hm')
    by_cases ht : m.type = "photo"
    · have hne := h m (List.mem_cons_self _ _) ht
      cases hp : image_contains_doge (predict m.url) with
      | none =>
        cases hq : predict m.url with
        | nil => exact absurd hq hne
        | cons a l => rw [hq] at hp; simp [image_contains_doge] at hp
      | some b =>
        have hcd : classified_doge predict m.url = b := by
          simp [classified_doge, hp]
        cases b with
        | true => simp [scan_media, ht, hp, photo_urls, take_until, hcd]
        | false => simp [scan_media, ht, hp, hrest, photo_urls, take_until, hcd]
    · simp [scan_media, ht, hrest, photo_urls]

/-- Claim C7, confirmed: for a record tagged `has-media` with media attached
(and a classifier that returns at least one inference per photo), a trade for
the fixed symbol `DOGEUSDT` is launched if and only if some attached photo is
classified as the Doge label with score at or above the threshold; the scan
classifies exactly the photos up to and including the first qualifying one
(no further photo is classified), and when no photo qualifies the record is
dropped. -/
theorem has_media_dispatch_correct (predict : String → List Inference)
    (r : StreamRecord) (t : String) (rules : List MatchingRule)
    (media : List MediaItem)
    (hdata : r.data = some t)
    (hrules : r.matching_rules = some ({ tag := HAS_MEDIA_RULE_TAG } :: rules))
    (hinc : r.includes = some media)
    (hpred : ∀ m ∈ media, m.type = "photo" → predict m.url ≠ []) :
    (process_record predict r = RecordOutcome.launched "DOGEUSDT" ↔
      ∃ m ∈ media, m.type = "photo" ∧
        image_contains_doge (predict m.url) = some true) ∧
    ((¬ ∃ m ∈ media, m.type = "photo" ∧
        image_contains_doge (predict m.url) = some true) →
      process_record predict r = RecordOutcome.droppedNoDoge) ∧
    scan_media predict media =
      some (take_until (classified_doge predict) (photo_urls media),
        (photo_urls media).any (classified_doge predict)) := by
  have hscan := scan_media_spec predict media hpred
  have hiff := any_photo_iff predict media
  cases hany : (photo_urls media).any (classified_doge predict) with
  | true =>
    rw [hany] at hscan
    have hproc : process_record predict r = RecordOutcome.launched "DOGEUSDT" := by
      simp [process_record, hdata, hrules, hinc, hscan,
        DEV_ONLY_RULE_TAG, HAS_MEDIA_RULE_TAG]
    rw [hany] at hiff
    refine ⟨?_, fun hno => absurd (hiff.mp rfl) hno, hscan⟩
    simp [hproc, hiff.mp rfl]
  | false =>
    rw [hany] at hscan
    have hproc : process_record predict r = RecordOutcome.droppedNoDoge := by
      simp [process_record, hdata, hrules, hinc, hscan,
        DEV_ONLY_RULE_TAG, HAS_MEDIA_RULE_TAG]
    refine ⟨?_, fun _ => hproc, hscan⟩
    rw [hproc]
    constructor
    · intro hcontra; exact absurd hcontra (by simp)
    · intro hex; exact absurd (hiff.mpr hex) (by simp [hany])

/-- Concrete classifier: only `doge.jpg` is classified as a Doge. -/
def predict0 : String → List Inference :=
  fun u => if u = "doge.jpg" then [⟨"Shiba Inu Dog", 1/2⟩]
    else [⟨"Labrador Retriever", 9/10⟩]

/-- Concrete media list: a video, a non-qualifying photo, the qualifying
photo, then one more photo that must not be classified. -/
def media0 : List MediaItem :=
  [⟨"video", "clip.mp4"⟩, ⟨"photo", "cat.jpg"⟩, ⟨"photo", "doge.jpg"⟩,
   ⟨"photo", "late.jpg"⟩]

/-- Concrete `has-media` record carrying `media0`. -/
def record0 : StreamRecord :=
  ⟨some "1463", some [⟨HAS_MEDIA_RULE_TAG⟩], some media0⟩

/-- Claim C7, witness: the theorem applied to the concrete record whose third
media item is the first qualifying photo. -/
theorem has_media_dispatch_correct_witness :
    (process_record predict0 record0 = RecordOutcome.launched "DOGEUSDT" ↔
      ∃ m ∈ media0, m.type = "photo" ∧
        image_contains_doge (predict0 m.url) = some true) ∧
    ((¬ ∃ m ∈ media0, m.type = "photo" ∧
        image_contains_doge (predict0 m.url) = some true) →
      process_record predict0 record0 = RecordOutcome.droppedNoDoge) ∧
    scan_media predict0 media0 =
      some (take_until (classified_doge predict0) (photo_urls media0),
        (photo_urls media0).any (classified_doge predict0)) :=
  has_media_dispatch_correct predict0 record0 "1463" [] media0 rfl rfl rfl
    (by decide)

/-! ## Claim C10 -/

/-- Classifier stub for records that never reach classification. -/
def predictEmpty : String → List Inference := fun _ => []

/-- Record with a `data` field but no `matching_rules` key. -/
def recordNoRules : StreamRecord := ⟨some "99", none, none⟩

/-- Well-formed record for `BTCUSDT`, used as the abandoned remainder of a
stream body. -/
def recordBTC : StreamRecord := ⟨some "7", some [⟨"BTCUSDT"⟩], none⟩

/-- Claim C10, confirmed: a record with a `data` field whose
`matching_rules` field is absent or an empty array is not log-and-skipped:
the first-rule lookup raises, the exception is caught at connection level,
and a full reconnect is triggered, abandoning the rest of the current
body. -/
theorem missing_matching_rules_raises_reconnect
    (predict : String → List Inference) (r : StreamRecord) (t : String)
    (hdata : r.data = some t)
    (hmr : r.matching_rules = none ∨ r.matching_rules = some []) :
    process_record predict r = RecordOutcome.raised ∧
    process_record predict r ≠ RecordOutcome.warnInvalid ∧
    ∀ rest, consume_body predict (BodyLine.record r :: rest) =
      ([RecordOutcome.raised], true) := by
  have hp : process_record predict r = RecordOutcome.raised := by
    rcases hmr with h | h <;> simp [process_record, hdata, h]
  exact ⟨hp, by simp [hp], fun rest => by simp [consume_body, hp]⟩

/-- Claim C10, witness: the theorem applied to a record lacking
`matching_rules`, with a well-formed `BTCUSDT` record behind it in the body
that is abandoned by the reconnect. -/
theorem missing_matching_rules_raises_reconnect_witness :
    process_record predictEmpty recordNoRules = RecordOutcome.raised ∧
    consume_body predictEmpty
      [BodyLine.record recordNoRules, BodyLine.record recordBTC] =
      ([RecordOutcome.raised], true) :=
  ⟨(missing_matching_rules_raises_reconnect predictEmpty recordNoRules "99"
      rfl (Or.inl rfl)).1,
   (missing_matching_rules_raises_reconnect predictEmpty recordNoRules "99"
      rfl (Or.inl rfl)).2.2 [BodyLine.record recordBTC]⟩

/-! ## Claim C9 -/

/-- Claim C9, confirmed: for every price and every positive tick size,
`round_step_size` returns an exact integer multiple of the tick, and that
multiple is one nearest to the price; concretely, a fill at 100.0 with
stop-loss multiplier 0.98 and tick size 0.1 gives a stop price of exactly
98.0, and the pipeline submits the stop-loss order at that price. -/
theorem round_step_size_nearest_multiple :
    (∀ price tick : ℚ, 0 < tick →
      (∃ n : ℤ, round_step_size price tick = n * tick) ∧
      ∀ m : ℤ, |round_step_size price tick - price| ≤
        |(m : ℚ) * tick - price|) ∧
    round_step_size (100 * (98/100)) (1/10) = 98 ∧
    (∃ q, ExCall.setStopLoss q 98 ∈
      (launch_trade "DOGEUSDT" cfg0 1000 env0).calls) := by
  have hval : round_step_size (100 * (98/100)) (1/10) = 98 := by
    norm_num [round_step_size, round_ofNat]
  have hgen : ∀ price tick : ℚ, 0 < tick →
      (∃ n : ℤ, round_step_size price tick = n * tick) ∧
      ∀ m : ℤ, |round_step_size price tick - price| ≤
        |(m : ℚ) * tick - price| := by
    intro price tick ht
    have htne : tick ≠ 0 := ne_of_gt ht
    have key : ∀ z : ℚ, (z - price / tick) * tick = z * tick - price := by
      intro z; field_simp
    refine ⟨⟨round (price / tick), rfl⟩, fun m => ?_⟩
    have h1 : |(round (price / tick) : ℚ) - price / tick| ≤
        |(m : ℚ) - price / tick| :=
      calc |(round (price / tick) : ℚ) - price / tick|
          = |price / tick - round (price / tick)| := abs_sub_comm _ _
        _ ≤ |price / tick - m| := round_le _ m
        _ = |(m : ℚ) - price / tick| := abs_sub_comm _ _
    rw [round_step_size, ← key ((round (price / tick) : ℤ) : ℚ), ← key (m : ℚ),
      abs_mul, abs_mul]
    exact mul_le_mul_of_nonneg_right h1 (abs_nonneg _)
  refine ⟨hgen, hval, ?_⟩
  refine ⟨pyRoundDp (1000 * cfg0.allocation * (cfg0.leverage : ℚ) /
    env0.positionInfo.markPrice) cfg0.quantity_precision, ?_⟩
  have hval' : round_step_size (100 * (98/100)) ((10 : ℚ))⁻¹ = 98 := by
    rw [← one_div]; exact hval
  simp [launch_trade, env0, cfg0, ORDER_STATUS_FILLED, ORDER_STATUS_NEW, hval']

/-- Claim C9, witness: the quantified part of the theorem applied at price
100 and tick 1, compared against the candidate multiple 99. -/
theorem round_step_size_nearest_multiple_witness :
    |round_step_size 100 1 - 100| ≤ |((99 : ℤ) : ℚ) * 1 - 100| :=
  (round_step_size_nearest_multiple.1 100 1 one_pos).2 99

end CryptoBot
